import Mathlib

/-!
Verification of the connection-topology / registry layer of redis-mate
(`src-tauri/src/redis_service.rs`, `src-tauri/src/app_state.rs`) against its
natural-language specification.  Each Rust function relevant to the spec is
shallowly embedded as an executable Lean definition; network interactions and
database interactions are supplied by explicit oracle arguments.
-/

namespace RedisMate

/-- Mirrors the retry loop of `RedisService::with_retry`
(`redis_service.rs:477-502`).  `f i` is the outcome of the `i`-th invocation
of the wrapped closure (0-indexed); `remaining` is the retry budget still
available (`retries - attempts` in the Rust loop, so the loop body at call
index `i` runs with `remaining = retries - i`).  Returns the surfaced result,
the number of invocations of `f` performed, and the list of sleep delays (in
milliseconds) executed between consecutive invocations. -/
def withRetryGo {E T : Type} (delayMs : Nat) (f : Nat → Except E T) :
    Nat → Nat → Except E T × Nat × List Nat
  | i, 0 =>
    match f i with
    | .ok v => (.ok v, 1, [])
    | .error e => (.error e, 1, [])
  | i, remaining + 1 =>
    match f i with
    | .ok v => (.ok v, 1, [])
    | .error _ =>
      let r := withRetryGo delayMs f (i + 1) remaining
      (r.1, r.2.1 + 1, delayMs :: r.2.2)

/-- Mirrors `RedisService::with_retry` (`redis_service.rs:477-502`) run to
completion with retry budget `retries` and fixed delay `delayMs`
(`cfg.retries` and `cfg.retry_delay_ms`). -/
def with_retry {E T : Type} (retries delayMs : Nat) (f : Nat → Except E T) :
    Except E T × Nat × List Nat :=
  withRetryGo delayMs f 0 retries

/-- Discriminator for `Except`: `true` exactly on `.ok`. -/
def exOk {E T : Type} : Except E T → Bool
  | .ok _ => true
  | .error _ => false

/-- Mirrors `RedisConfig` (`redis_service.rs:200-269`): the persisted /
supplied connection configuration.  Addresses are kept as strings. -/
structure RedisConfig where
  urls : List String
  cluster : Bool
  pool_size : Nat
  retries : Nat
  retry_delay_ms : Nat
  sentinel : Bool
  sentinel_master_name : Option String
  sentinel_urls : List String
deriving DecidableEq, Repr

/-- Mirrors `impl Default for RedisConfig` (`redis_service.rs:284-306`). -/
def RedisConfig.default : RedisConfig :=
  { urls := ["redis://127.0.0.1:6379"]
    cluster := false
    pool_size := 16
    retries := 3
    retry_delay_ms := 200
    sentinel := false
    sentinel_master_name := none
    sentinel_urls := [] }

/-- Mirrors `ConnectionKind` (`redis_service.rs:348-367`): which transport a
handle holds.  The transport objects themselves (connection manager, raw
client, cluster client) live behind the network boundary and carry no data
relevant to the verified claims. -/
inductive ConnectionKind where
  | standalone
  | cluster
deriving DecidableEq, Repr

/-- Mirrors `RedisService` (`redis_service.rs:334-341`): a live handle, the
transport kind plus the retained configuration. -/
structure RedisService where
  kind : ConnectionKind
  cfg : RedisConfig
deriving DecidableEq, Repr

/-- Repeatedly removes the prefix `pat` from the front of `s`, as Rust's
`str::trim_start_matches` does (it strips *all* successive occurrences).
`fuel` bounds the recursion; `fuel = s.length` is always enough for a
non-empty `pat`. -/
def dropPrefixAll (pat : List Char) : Nat → List Char → List Char
  | 0, s => s
  | fuel + 1, s =>
    if pat.isPrefixOf s then dropPrefixAll pat fuel (s.drop pat.length) else s

/-- Rust's `s.trim_start_matches(pat)` for string arguments: strips every
successive occurrence of `pat` from the front of `s`. -/
def trimStartMatchesStr (pat s : String) : String :=
  String.mk (dropPrefixAll pat.data s.data.length s.data)

/-- Removes every leading occurrence of the character `c`. -/
def dropCharAll (c : Char) : List Char → List Char
  | [] => []
  | x :: xs => if x == c then dropCharAll c xs else x :: xs

/-- Rust's `s.trim_end_matches(c)` for a char argument: strips every trailing
occurrence of `c`. -/
def trimEndMatchesChar (c : Char) (s : String) : String :=
  String.mk ((dropCharAll c s.data.reverse).reverse)

/-- Mirrors the per-address normalization inside `build_sentinel_url`
(`redis_service.rs:3070-3075`):
`u.trim_start_matches("redis://").trim_start_matches("http://").trim_end_matches('/')`. -/
def normalizeSentinelAddr (u : String) : String :=
  trimEndMatchesChar '/' (trimStartMatchesStr "http://" (trimStartMatchesStr "redis://" u))

/-- Mirrors `build_sentinel_url` (`redis_service.rs:3069-3082`): normalize
every sentinel address, fail when the (mapped) list is empty, otherwise join
with `,`, append `/master`, and put the `redis+sentinel://` scheme in
front. -/
def build_sentinel_url (master : String) (urls : List String) : Except String String :=
  let hosts := urls.map normalizeSentinelAddr
  if hosts.isEmpty then
    .error "No sentinel URLs provided"
  else
    .ok ("redis+sentinel://" ++ String.intercalate "," hosts ++ "/" ++ master)

/-- Normalization as worded by the specification and the claim: strip one
leading `redis://` or `http://`, then strip one trailing `/`.  Stated only
to be compared with `normalizeSentinelAddr`, which is translated from the
source. -/
def specNormalizeAddr (u : String) : String :=
  let d := u.data
  let d1 :=
    if ("redis://".data).isPrefixOf d then d.drop 8
    else if ("http://".data).isPrefixOf d then d.drop 7
    else d
  let d2 := if d1.getLast? = some '/' then d1.dropLast else d1
  String.mk d2

/-- Connection descriptor handed to the external redis client library at the
end of the pure part of `RedisService::new`. -/
inductive ConnectPlan where
  | clusterPlan (urls : List String)
  | standalonePlan (url : String)
deriving DecidableEq, Repr

/-- Mirrors the configuration-validation part of `RedisService::new`
(`redis_service.rs:404-436`): everything the function does before invoking
the external client constructors (`ClusterClient::new`, `Client::open`) and
the dial (`get_connection_manager`).  Returns the connect plan passed on to
the client library, or the construction-time error raised before any
external call. -/
def newPlan (cfg : RedisConfig) : Except String ConnectPlan :=
  if cfg.cluster then
    .ok (.clusterPlan cfg.urls)
  else if cfg.sentinel then
    match cfg.sentinel_master_name with
    | none => .error "sentinel master name required"
    | some master =>
      match build_sentinel_url master cfg.sentinel_urls with
      | .error e => .error e
      | .ok url => .ok (.standalonePlan url)
  else
    match cfg.urls.head? with
    | none => .error "no redis url provided"
    | some u => .ok (.standalonePlan u)

/-- Mirrors `RedisService::new` (`redis_service.rs:404-436`) end to end: the
pure validation of `newPlan` followed by the external client construction /
dial, whose outcome is supplied by the oracle `dial`. -/
def newWithDial (dial : ConnectPlan → Except String ConnectionKind)
    (cfg : RedisConfig) : Except String RedisService :=
  match newPlan cfg with
  | .error e => .error e
  | .ok plan =>
    match dial plan with
    | .error e => .error e
    | .ok kind => .ok ⟨kind, cfg⟩

/-- Mirrors one attempt of the closure inside `RedisService::set`
(`redis_service.rs:1404-1454`), representative of every database-indexed
data-plane operation (`get`, `scan`, `dbsize`, `persist`, `get_type`, ...,
which all repeat the same dispatch skeleton).  The network interaction of an
attempt (connection acquisition plus command round trip) is coalesced into
one oracle consultation `net i`; the second component counts the network
interactions the attempt performs.  In the cluster branch the `db != 0`
check (`redis_service.rs:1434-1436`) returns its error before any network
interaction. -/
def setAttempt (kind : ConnectionKind) (db : Nat)
    (net : Nat → Except String Unit) (i : Nat) : Except String Unit × Nat :=
  match kind with
  | .standalone => (net i, 1)
  | .cluster =>
    if db ≠ 0 then (.error "Cluster mode does not support multiple databases", 0)
    else (net i, 1)

/-- Mirrors a full `RedisService::set` call (`redis_service.rs:1404-1454`):
the attempt closure wrapped by `with_retry`.  Returns the surfaced result,
the number of attempts, and the delays slept. -/
def setRun (kind : ConnectionKind) (db : Nat) (net : Nat → Except String Unit)
    (retries delayMs : Nat) : Except String Unit × Nat × List Nat :=
  with_retry retries delayMs (fun i => (setAttempt kind db net i).1)

/-- Total number of network interactions a `setRun` performs: the sum of the
per-attempt counts over the attempts actually made. -/
def setRunNetCalls (kind : ConnectionKind) (db : Nat)
    (net : Nat → Except String Unit) (retries delayMs : Nat) : Nat :=
  ((List.range (setRun kind db net retries delayMs).2.1).map
    (fun i => (setAttempt kind db net i).2)).sum

/-- Pointwise update of a string-keyed partial map. -/
def upd {α : Type} (m : String → Option α) (k : String) (v : Option α) :
    String → Option α :=
  fun n => if n = k then v else m n

/-- State touched by `AppState` (`app_state.rs:47-56`): the in-memory
registry `services` and the persisted config store managed by `DbManager`
(`db.rs`, keyed by name). -/
structure RegState where
  registry : String → Option RedisService
  store : String → Option RedisConfig

/-- Mirrors `AppState::get_service` (`app_state.rs:180-184`): look the name
up under the read lock and hand out a clone of the handle. -/
def get_service (s : RegState) (name : String) : Option RedisService :=
  s.registry name

/-- Mirrors `AppState::add_connection` (`app_state.rs:225-243`).  `dial` is
the outcome of `RedisService::new(config)` (step 1); `persistOk` tells
whether `DbManager::save_config` (step 2, a single upsert statement)
succeeds.  Only after both succeed is the handle inserted into the map
(step 3).  Returns the resulting state and the call's result. -/
def add_connection (dial : Except String RedisService) (persistOk : Bool)
    (s : RegState) (name : String) (cfg : RedisConfig) :
    RegState × Except String Unit :=
  match dial with
  | .error _ => (s, .error "Failed to connect to Redis")
  | .ok svc =>
    if persistOk then
      let s1 : RegState := { s with store := upd s.store name (some cfg) }
      ({ s1 with registry := upd s1.registry name (some svc) }, .ok ())
    else
      (s, .error "Failed to save config to DB")

/-- Mirrors `AppState::remove_connection` (`app_state.rs:274-291`).  `dbOk`
tells whether `DbManager::delete_config` succeeds as a database operation
(its boolean answer — whether a row existed — is only logged).  On success
the persisted record is gone and the map entry is removed regardless of
whether either existed; a clone of the handle previously given out by
`get_service` lives on outside the registry. -/
def remove_connection (dbOk : Bool) (s : RegState) (name : String) :
    RegState × Except String Unit :=
  if dbOk then
    ({ registry := upd s.registry name none, store := upd s.store name none }, .ok ())
  else
    (s, .error "Failed to delete config from DB")

/-- Mirrors the rebuild loop of `AppState::reload_from_db`
(`app_state.rs:137-149`): for each persisted `(name, cfg)` in order, dial it
(`dial` gives the outcome of `RedisService::new` for that entry) and insert
on success; a failing entry is logged and skipped. -/
def loadAll (dial : String × RedisConfig → Option RedisService) :
    List (String × RedisConfig) → (String → Option RedisService) →
    (String → Option RedisService)
  | [], m => m
  | (n, c) :: rest, m =>
    match dial (n, c) with
    | some svc => loadAll dial rest (upd m n (some svc))
    | none => loadAll dial rest m

/-- Mirrors `AppState::reload_from_db` (`app_state.rs:126-152`): read
`configs` from the store (`list_configs`), clear the map, and rebuild it
entry by entry.  The persisted store is not written at all. -/
def reload_from_db (configs : List (String × RedisConfig))
    (dial : String × RedisConfig → Option RedisService) (s : RegState) : RegState :=
  { registry := loadAll dial configs (fun _ => none), store := s.store }

/-- Events on the concurrency-relevant skeleton of a registry operation:
network / external I/O, taking and releasing the map's write lock, and
mutating the map. -/
inductive Event where
  | net (tag : String)
  | lockW
  | unlockW
  | mapOp (tag : String)
deriving DecidableEq, Repr

/-- Event trace of `AppState::add_connection` (`app_state.rs:225-243`): dial
(line 228), persist (line 232), then `services.write().await` (line 236),
insert (line 237), lock released at end of scope. -/
def add_connection_trace (dialOk persistOk : Bool) : List Event :=
  if !dialOk then [.net "dial"]
  else if !persistOk then [.net "dial", .net "persist"]
  else [.net "dial", .net "persist", .lockW, .mapOp "insert", .unlockW]

/-- Event trace of `AppState::remove_connection` (`app_state.rs:274-291`):
`delete_config` (line 276), then `services.write().await` (line 284), remove
(line 285), lock released at end of scope. -/
def remove_connection_trace (dbOk : Bool) : List Event :=
  if !dbOk then [.net "delete_config"]
  else [.net "delete_config", .lockW, .mapOp "remove", .unlockW]

/-- Event trace of `AppState::reload_from_db` (`app_state.rs:126-152`):
`list_configs` (line 128), then `services.write().await` (line 131),
`map.clear()` (line 134), and for every persisted entry a dial
(`RedisService::new`, line 138) — inside the write-lock scope — followed by
an insert when the dial succeeds (line 141); the lock is released at end of
scope.  `dials` lists the per-entry dial outcomes. -/
def reload_trace (dbOk : Bool) (dials : List Bool) : List Event :=
  if !dbOk then [.net "list_configs"]
  else [.net "list_configs", .lockW, .mapOp "clear"]
    ++ (dials.flatMap fun ok => .net "dial" :: (if ok then [.mapOp "insert"] else []))
    ++ [.unlockW]

/-- Scans a trace and reports whether any network event happens while the
write lock is held (`held` is the lock state entering the trace). -/
def netWhileLocked : List Event → Bool → Bool
  | [], _ => false
  | .lockW :: es, _ => netWhileLocked es true
  | .unlockW :: es, _ => netWhileLocked es false
  | .net _ :: es, held => held || netWhileLocked es held
  | .mapOp _ :: es, held => netWhileLocked es held

/-- Key space of the lock primitives: the value stored under a resource key,
`none` when the key is absent.  Expiry is abstracted away — the verified
claim is about the window in which the key is unexpired. -/
def LockStore := String → Option String

/-- Mirrors `RedisService::try_lock` (`redis_service.rs:1083-1118`): one
`SET resource token NX PX ttl` round trip under standard single-threaded
redis semantics — the key is written only when absent, and the call reports
whether the reply was non-nil. -/
def tryLockStep (st : LockStore) (resource token : String) (_ttl_ms : Nat) :
    LockStore × Bool :=
  match st resource with
  | none => (upd st resource (some token), true)
  | some _ => (st, false)

/-- Mirrors `RedisService::unlock` (`redis_service.rs:1161-1195`): the Lua
script `if redis.call("get", KEYS[1]) == ARGV[1] then return
redis.call("del", KEYS[1]) else return 0 end` evaluated atomically as a
single step, with the call reporting whether the returned count is
positive. -/
def unlockStep (st : LockStore) (resource token : String) : LockStore × Bool :=
  match st resource with
  | some v => if v = token then (upd st resource none, true) else (st, false)
  | none => (st, false)

end RedisMate

namespace RedisMate

theorem withRetryGo_all_fail {E T : Type} (delayMs : Nat) (f : Nat → Except E T) :
    ∀ (n i : Nat), (∀ j, i ≤ j → j ≤ i + n → exOk (f j) = false) →
      withRetryGo delayMs f i n = (f (i + n), n + 1, List.replicate n delayMs) := by
  intro n
  induction n with
  | zero =>
    intro i h
    have h0 := h i le_rfl (by omega)
    cases hf : f i with
    | ok v => rw [hf] at h0; simp [exOk] at h0
    | error e => simp [withRetryGo, hf]
  | succ n ih =>
    intro i h
    have h0 := h i le_rfl (by omega)
    cases hf : f i with
    | ok v => rw [hf] at h0; simp [exOk] at h0
    | error e =>
      have hrec := ih (i + 1) (fun j h1 h2 => h j (by omega) (by omega))
      simp only [withRetryGo, hf, hrec]
      rw [show i + 1 + n = i + (n + 1) from by omega, List.replicate_succ]

theorem withRetryGo_first_ok {E T : Type} (delayMs : Nat) (f : Nat → Except E T) :
    ∀ (k n i : Nat) (v : T), k ≤ n → f (i + k) = .ok v →
      (∀ j, i ≤ j → j < i + k → exOk (f j) = false) →
      withRetryGo delayMs f i n = (.ok v, k + 1, List.replicate k delayMs) := by
  intro k
  induction k with
  | zero =>
    intro n i v _ hok _
    simp only [Nat.add_zero] at hok
    cases n with
    | zero => simp [withRetryGo, hok]
    | succ m => simp [withRetryGo, hok]
  | succ k ih =>
    intro n i v hkn hok hfail
    have h0 := hfail i le_rfl (by omega)
    cases hf : f i with
    | ok w => rw [hf] at h0; simp [exOk] at h0
    | error e =>
      cases n with
      | zero => omega
      | succ m =>
        have hok' : f (i + 1 + k) = .ok v := by
          have : i + 1 + k = i + (k + 1) := by omega
          rw [this]; exact hok
        have hrec := ih m (i + 1) v (by omega) hok'
          (fun j h1 h2 => hfail j (by omega) (by omega))
        simp only [withRetryGo, hf, hrec]
        rw [List.replicate_succ]

theorem loadAll_isSome (dial : String × RedisConfig → Option RedisService) :
    ∀ (configs : List (String × RedisConfig)) (m : String → Option RedisService) (n : String),
      (loadAll dial configs m n).isSome
        = ((configs.any fun p => p.1 == n && (dial p).isSome) || (m n).isSome) := by
  intro configs
  induction configs with
  | nil => intro m n; simp [loadAll]
  | cons p rest ih =>
    intro m n
    obtain ⟨pn, pc⟩ := p
    cases hd : dial (pn, pc) with
    | none => simp [loadAll, hd, ih]
    | some svc =>
      by_cases hn : n = pn
      · subst hn; simp [loadAll, hd, ih, upd]
      · have hb : (pn == n) = false := by
          simp only [beq_eq_false_iff_ne]
          exact fun hcontra => hn hcontra.symm
        simp [loadAll, hd, ih, upd, hn, hb, Bool.or_assoc]

/-- C1: an operation wrapped by `with_retry` under a configuration with
`retries = N` that fails on every attempt is attempted exactly `N + 1`
times, with a fixed `retry_delay_ms` sleep between consecutive attempts,
and the surfaced error is the error of the last attempt; and if attempt `k`
is the first to succeed, its value is returned after exactly `k + 1`
attempts (no further attempt is made). -/
theorem with_retry_attempts_claim {E T : Type} (retries delayMs : Nat)
    (f : Nat → Except E T) :
    ((∀ i, i ≤ retries → exOk (f i) = false) →
      with_retry retries delayMs f
        = (f retries, retries + 1, List.replicate retries delayMs))
  ∧ (∀ k v, k ≤ retries → f k = .ok v → (∀ i, i < k → exOk (f i) = false) →
      with_retry retries delayMs f = (.ok v, k + 1, List.replicate k delayMs)) := by
  constructor
  · intro h
    have hall := withRetryGo_all_fail delayMs f retries 0 (fun j _ h2 => h j (by omega))
    simpa [with_retry] using hall
  · intro k v hk hok hfail
    have hfirst := withRetryGo_first_ok delayMs f k retries 0 v hk
      (by simpa using hok) (fun j _ h2 => hfail j (by omega))
    simpa [with_retry] using hfirst

/-- Witness for C1: with `retries = 2`, `delay = 50`, an always-failing
operation runs 3 times, sleeps twice, and surfaces the error of call 2;
an operation succeeding on its second call runs exactly twice. -/
theorem with_retry_attempts_claim_witness :
    with_retry 2 50 (fun i => (.error (10 + i) : Except Nat Unit))
      = (.error 12, 3, [50, 50])
    ∧ with_retry 2 50 (fun i => if i = 1 then .ok 7 else (.error 0 : Except Nat Nat))
      = (.ok 7, 2, [50]) := by
  constructor
  · exact (with_retry_attempts_claim 2 50
      (fun i => (.error (10 + i) : Except Nat Unit))).1 (by decide)
  · exact (with_retry_attempts_claim 2 50
      (fun i => if i = 1 then .ok 7 else (.error 0 : Except Nat Nat))).2 1 7
      (by decide) (by rfl) (by decide)

/-- C2 counterexample: a `set` with `db = 1` on a cluster handle configured
with `retries = 3`, `delay = 200` makes 4 attempts and sleeps 3 times before
surfacing the topology error — the `db != 0` check sits inside the
`with_retry` closure, so the error is retried like any other, not reported
immediately (it does perform zero network calls). -/
theorem cluster_db_retry_cex :
    setRun .cluster 1 (fun _ => .ok ()) 3 200
      = (.error "Cluster mode does not support multiple databases", 4, [200, 200, 200])
    ∧ setRunNetCalls .cluster 1 (fun _ => .ok ()) 3 200 = 0
    ∧ (setRun .cluster 1 (fun _ => .ok ()) 3 200).2.1 ≠ 1 :=
  ⟨rfl, rfl, by decide⟩

/-- C2 (amended): a database-indexed operation with `db ≠ 0` on a cluster
handle surfaces the topology-mismatch error and performs no network call on
any attempt, but the check runs inside the retry wrapper: it is re-evaluated
on each of the `retries + 1` attempts, with the configured delay slept
between attempts, before the error reaches the caller. -/
theorem cluster_db_topology_claim (db : Nat) (hdb : db ≠ 0)
    (net : Nat → Except String Unit) (retries delayMs : Nat) :
    setRun .cluster db net retries delayMs
      = (.error "Cluster mode does not support multiple databases", retries + 1,
          List.replicate retries delayMs)
    ∧ setRunNetCalls .cluster db net retries delayMs = 0 := by
  have hattempt : ∀ i, setAttempt .cluster db net i
      = (.error "Cluster mode does not support multiple databases", 0) := by
    intro i; simp [setAttempt, hdb]
  have h1 : setRun .cluster db net retries delayMs
      = (.error "Cluster mode does not support multiple databases", retries + 1,
          List.replicate retries delayMs) := by
    have hall := withRetryGo_all_fail delayMs
      (fun i => (setAttempt .cluster db net i).1) retries 0
      (fun j _ _ => by simp [hattempt, exOk])
    simpa [setRun, with_retry, hattempt] using hall
  refine ⟨h1, ?_⟩
  simp only [setRunNetCalls, h1]
  apply List.sum_eq_zero
  intro x hx
  simp only [List.mem_map] at hx
  obtain ⟨i, _, hi⟩ := hx
  rw [← hi, hattempt]

/-- Witness for C2 (amended): `db = 2`, `retries = 1`, `delay = 10`. -/
theorem cluster_db_topology_claim_witness :
    setRun .cluster 2 (fun _ => .ok ()) 1 10
      = (.error "Cluster mode does not support multiple databases", 2, [10])
    ∧ setRunNetCalls .cluster 2 (fun _ => .ok ()) 1 10 = 0 :=
  cluster_db_topology_claim 2 (by decide) (fun _ => .ok ()) 1 10

/-- C3 counterexample: on the address `redis://redis://127.0.0.1:26379` the
builder strips both leading `redis://` occurrences (Rust's
`trim_start_matches` strips all successive occurrences), while the claim's
strip-one-leading-prefix normalization leaves one, so the built URL differs
from the one the claim describes. -/
theorem sentinel_url_strip_cex :
    build_sentinel_url "m" ["redis://redis://127.0.0.1:26379"]
      = .ok "redis+sentinel://127.0.0.1:26379/m"
    ∧ specNormalizeAddr "redis://redis://127.0.0.1:26379" = "redis://127.0.0.1:26379"
    ∧ build_sentinel_url "m" ["redis://redis://127.0.0.1:26379"]
      ≠ .ok ("redis+sentinel://"
          ++ specNormalizeAddr "redis://redis://127.0.0.1:26379" ++ "/m") := by
  refine ⟨rfl, rfl, fun h => absurd (Except.ok.inj h) (by decide)⟩

/-- C3 (amended): the builder normalizes each address by stripping *all*
leading `redis://` occurrences, then all leading `http://` occurrences, then
all trailing `/` characters; it joins the normalized addresses with `,`,
appends `/` and the master name, prefixes `redis+sentinel://`, and fails
exactly when the address list is empty.  The claim's concrete example holds
as stated. -/
theorem build_sentinel_url_claim (master : String) (urls : List String)
    (h : urls ≠ []) :
    build_sentinel_url master urls
      = .ok ("redis+sentinel://"
          ++ String.intercalate "," (urls.map normalizeSentinelAddr) ++ "/" ++ master)
    ∧ (∀ m2, build_sentinel_url m2 ([] : List String)
        = .error "No sentinel URLs provided")
    ∧ normalizeSentinelAddr "redis://redis://127.0.0.1:26379" = "127.0.0.1:26379"
    ∧ normalizeSentinelAddr "127.0.0.1:26381//" = "127.0.0.1:26381"
    ∧ build_sentinel_url "mymaster"
        ["redis://127.0.0.1:26379", "http://127.0.0.1:26380/", "127.0.0.1:26381"]
      = .ok "redis+sentinel://127.0.0.1:26379,127.0.0.1:26380,127.0.0.1:26381/mymaster" := by
  refine ⟨?_, fun m2 => rfl, rfl, rfl, rfl⟩
  have hne : (urls.map normalizeSentinelAddr).isEmpty = false := by
    cases urls with
    | nil => exact absurd rfl h
    | cons a l => rfl
  simp [build_sentinel_url, hne]

/-- Witness for C3 (amended): a one-address list. -/
theorem build_sentinel_url_claim_witness :
    build_sentinel_url "mymaster" ["redis://127.0.0.1:26379"]
      = .ok "redis+sentinel://127.0.0.1:26379/mymaster" :=
  (build_sentinel_url_claim "mymaster" ["redis://127.0.0.1:26379"]
    (by decide)).1

/-- C4 counterexample: when the dial fails but `name` was already present
(in the registry and in the store, from an earlier successful add), the
failed `add_connection` leaves both in place — the registry still contains
`name` and the store still holds a record for it, contrary to the claim. -/
theorem add_connection_fail_cex :
    ((add_connection (.error "connection refused") true
        ⟨fun n => if n = "a" then some ⟨.standalone, RedisConfig.default⟩ else none,
         fun n => if n = "a" then some RedisConfig.default else none⟩
        "a" RedisConfig.default).1.registry "a").isSome = true
    ∧ ((add_connection (.error "connection refused") true
        ⟨fun n => if n = "a" then some ⟨.standalone, RedisConfig.default⟩ else none,
         fun n => if n = "a" then some RedisConfig.default else none⟩
        "a" RedisConfig.default).1.store "a").isSome = true :=
  ⟨rfl, rfl⟩

/-- C4 (amended): the steps occur in the order dial → persist → insert; if
the dial fails, the call errors and both the registry and the store are left
exactly unchanged (in particular a name not previously present stays absent
and nothing is persisted); if persistence fails after the dial succeeded,
the handle is discarded and registry and store are unchanged; on full
success the store and then the registry gain the entry for `name`. -/
theorem add_connection_claim :
    (∀ (e : String) (persistOk : Bool) (s : RegState) (name : String) (cfg : RedisConfig),
      add_connection (.error e) persistOk s name cfg
        = (s, .error "Failed to connect to Redis"))
  ∧ (∀ (svc : RedisService) (s : RegState) (name : String) (cfg : RedisConfig),
      add_connection (.ok svc) false s name cfg
        = (s, .error "Failed to save config to DB"))
  ∧ (∀ (svc : RedisService) (s : RegState) (name : String) (cfg : RedisConfig) (n : String),
      (add_connection (.ok svc) true s name cfg).2 = .ok ()
      ∧ (add_connection (.ok svc) true s name cfg).1.registry n
          = (if n = name then some svc else s.registry n)
      ∧ (add_connection (.ok svc) true s name cfg).1.store n
          = (if n = name then some cfg else s.store n))
  ∧ add_connection_trace true true
      = [.net "dial", .net "persist", .lockW, .mapOp "insert", .unlockW] :=
  ⟨fun _ _ _ _ _ => rfl, fun _ _ _ _ => rfl,
   fun _ _ _ _ _ => ⟨rfl, rfl, rfl⟩, rfl⟩

/-- C5: after a successful reload, a name is in the registry exactly when
some persisted entry carries that name and its handle construction
succeeded — pre-existing entries are gone (the rebuild starts from the
cleared map), one failing entry does not prevent the others from loading,
and the persisted store is untouched. -/
theorem reload_registry_claim (configs : List (String × RedisConfig))
    (dial : String × RedisConfig → Option RedisService) (s : RegState) (n : String) :
    ((reload_from_db configs dial s).registry n).isSome
      = (configs.any fun p => p.1 == n && (dial p).isSome)
    ∧ (reload_from_db configs dial s).store = s.store := by
  constructor
  · simp [reload_from_db, loadAll_isSome]
  · rfl

/-- C6: a successful `remove_connection` deletes the persisted record first
and then removes the in-memory entry (see the trace), succeeds regardless of
whether either existed — in particular on a completely absent name — leaves
every other name untouched, and afterwards `get_service name` is absent. -/
theorem remove_connection_claim (s : RegState) (name n : String) :
    (remove_connection true s name).2 = .ok ()
    ∧ (remove_connection true s name).1.registry n
        = (if n = name then none else s.registry n)
    ∧ (remove_connection true s name).1.store n
        = (if n = name then none else s.store n)
    ∧ get_service (remove_connection true s name).1 name = none
    ∧ remove_connection_trace true
        = [.net "delete_config", .lockW, .mapOp "remove", .unlockW] := by
  refine ⟨rfl, rfl, rfl, ?_, rfl⟩
  simp [get_service, remove_connection, upd]

/-- C7: while `resource` holds the token `tokenA` (the unexpired lock set by
`try_lock`), any further `try_lock` returns `false` and leaves the store
unchanged (the conditional SET NX does not overwrite); `unlock` with a
non-matching token returns `false` and leaves the store unchanged; `unlock`
with the matching token returns `true` and deletes the key — the script's
compare and delete is a single atomic step by construction — after which a
`try_lock` on the resource succeeds. -/
theorem lock_token_claim (st : LockStore) (resource tokenA : String)
    (h : st resource = some tokenA) :
    (∀ tokenB ttl, tryLockStep st resource tokenB ttl = (st, false))
    ∧ (∀ tokenB, tokenB ≠ tokenA → unlockStep st resource tokenB = (st, false))
    ∧ (unlockStep st resource tokenA).2 = true
    ∧ (unlockStep st resource tokenA).1 resource = none
    ∧ (∀ tokenC ttl,
        (tryLockStep (unlockStep st resource tokenA).1 resource tokenC ttl).2 = true) := by
  refine ⟨?_, ?_, ?_, ?_, ?_⟩
  · intro tokenB ttl; simp [tryLockStep, h]
  · intro tokenB hne
    simp only [unlockStep, h]
    rw [if_neg (fun heq => hne heq.symm)]
  · simp [unlockStep, h]
  · simp [unlockStep, h, upd]
  · intro tokenC ttl; simp [unlockStep, h, tryLockStep, upd]

/-- Witness for C7: resource `"r"` locked with token `"ta"`; unlocking with
`"tb"` is a no-op and unlocking with `"ta"` clears the key. -/
theorem lock_token_claim_witness :
    unlockStep (fun n => if n = "r" then some "ta" else none) "r" "tb"
      = ((fun n => if n = "r" then some "ta" else none), false)
    ∧ (unlockStep (fun n => if n = "r" then some "ta" else none) "r" "ta").1 "r"
      = none := by
  have h := lock_token_claim (fun n => if n = "r" then some "ta" else none) "r" "ta" rfl
  exact ⟨h.2.1 "tb" (by decide), h.2.2.2.1⟩

/-- C8 counterexample: a configuration with both `cluster` and `sentinel`
set violates the mutual-exclusion invariant, yet `RedisService::new` simply
takes the cluster path — construction succeeds (given the external cluster
client constructs), no ConfigInvalid-class error is raised. -/
theorem new_both_modes_cex :
    (RedisConfig.mk ["redis://127.0.0.1:7001"] true 16 3 200 true none []).cluster = true
    ∧ (RedisConfig.mk ["redis://127.0.0.1:7001"] true 16 3 200 true none []).sentinel = true
    ∧ newWithDial (fun _ => .ok .cluster)
        (RedisConfig.mk ["redis://127.0.0.1:7001"] true 16 3 200 true none [])
      = .ok ⟨.cluster, RedisConfig.mk ["redis://127.0.0.1:7001"] true 16 3 200 true none []⟩ :=
  ⟨rfl, rfl, rfl⟩

/-- C8 (amended): a sentinel-mode configuration (with `cluster = false`)
lacking a master name, or carrying an empty sentinel address list, fails at
construction time before any external call, whatever the dial outcome would
be; but no mutual-exclusion check exists — `cluster = true` always takes
the cluster path regardless of the sentinel flag — and the master-name check
only requires presence, not non-emptiness. -/
theorem new_config_validation_claim (cfg : RedisConfig) :
    (cfg.cluster = false → cfg.sentinel = true → cfg.sentinel_master_name = none →
      ∀ dial, newWithDial dial cfg = .error "sentinel master name required")
    ∧ (∀ m, cfg.cluster = false → cfg.sentinel = true →
        cfg.sentinel_master_name = some m → cfg.sentinel_urls = [] →
        ∀ dial, newWithDial dial cfg = .error "No sentinel URLs provided")
    ∧ (cfg.cluster = true → newPlan cfg = .ok (.clusterPlan cfg.urls)) := by
  refine ⟨?_, ?_, ?_⟩
  · intro h1 h2 h3 dial
    simp [newWithDial, newPlan, h1, h2, h3]
  · intro m h1 h2 h3 h4 dial
    simp [newWithDial, newPlan, build_sentinel_url, h1, h2, h3, h4]
  · intro h1
    simp [newPlan, h1]

/-- Witness for C8 (amended): sentinel mode without a master name fails with
the construction-time error for every dial oracle. -/
theorem new_config_validation_claim_witness :
    newWithDial (fun _ => .ok .standalone)
      (RedisConfig.mk [] false 16 3 200 true none ["redis://127.0.0.1:26379"])
      = .error "sentinel master name required" :=
  (new_config_validation_claim
    (RedisConfig.mk [] false 16 3 200 true none ["redis://127.0.0.1:26379"])).1
    rfl rfl rfl (fun _ => .ok .standalone)

/-- C9 counterexample: a reload over a single persisted config dials inside
the write-lock scope — the trace contains a network event between taking and
releasing the exclusive lock. -/
theorem reload_lock_io_cex :
    netWhileLocked (reload_trace true [true]) false = true
    ∧ reload_trace true [true]
      = [.net "list_configs", .lockW, .mapOp "clear", .net "dial",
         .mapOp "insert", .unlockW] :=
  ⟨rfl, rfl⟩

/-- C9 (amended): `add_connection` and `remove_connection` take the write
lock only for the map mutation, after all their network I/O, so no network
event happens under the lock; `reload_from_db`, however, takes the write
lock before rebuilding and holds it across every per-entry dial — network
I/O happens under its lock exactly when at least one config is persisted,
only the initial config listing being outside the exclusive section. -/
theorem lock_discipline_claim :
    (∀ dialOk persistOk,
      netWhileLocked (add_connection_trace dialOk persistOk) false = false)
    ∧ (∀ dbOk, netWhileLocked (remove_connection_trace dbOk) false = false)
    ∧ (∀ dials, netWhileLocked (reload_trace true dials) false = !dials.isEmpty) := by
  refine ⟨?_, ?_, ?_⟩
  · intro a b; cases a <;> cases b <;> rfl
  · intro a; cases a <;> rfl
  · intro dials
    cases dials with
    | nil => rfl
    | cons d rest => cases d <;> simp [reload_trace, netWhileLocked]

/-- C10: a non-cluster, non-sentinel configuration with an empty `urls` list
fails at construction with the error `no redis url provided`, independently
of any dial outcome (no network attempt can influence it); with a non-empty
`urls` list, the single-node plan uses exactly the first address, whatever
the remaining addresses are. -/
theorem single_node_url_claim (cfg : RedisConfig) :
    (cfg.cluster = false → cfg.sentinel = false → cfg.urls = [] →
      ∀ dial, newWithDial dial cfg = .error "no redis url provided")
    ∧ (∀ u rest, cfg.cluster = false → cfg.sentinel = false → cfg.urls = u :: rest →
        newPlan cfg = .ok (.standalonePlan u)) := by
  constructor
  · intro h1 h2 h3 dial
    simp [newWithDial, newPlan, h1, h2, h3]
  · intro u rest h1 h2 h3
    simp [newPlan, h1, h2, h3]

/-- Witness for C10: the empty-urls config errors for every dial oracle, and
with two urls the plan is the first address. -/
theorem single_node_url_claim_witness :
    newWithDial (fun _ => .ok .standalone)
      (RedisConfig.mk [] false 16 3 200 false none [])
      = .error "no redis url provided"
    ∧ newPlan (RedisConfig.mk ["redis://a:1", "redis://b:2"] false 16 3 200 false none [])
      = .ok (.standalonePlan "redis://a:1") :=
  ⟨(single_node_url_claim (RedisConfig.mk [] false 16 3 200 false none [])).1
      rfl rfl rfl (fun _ => .ok .standalone),
   (single_node_url_claim
      (RedisConfig.mk ["redis://a:1", "redis://b:2"] false 16 3 200 false none [])).2
      "redis://a:1" ["redis://b:2"] rfl rfl rfl⟩

end RedisMate
